import Mathlib

/-!
Verification development for the GlueBot reply-resolution pipeline
(`src/main.py` of the GlueBot repository).

Modelling conventions:
* Text is modelled as `List Char` (`Str`).  Python's `str.lower` is modelled
  per character by `Char.toLower`, which matches CPython on ASCII input
  (the only input the pipeline's fixed keyword sets and phrase sets use);
  `str.strip` is modelled by dropping the ASCII whitespace characters
  (space, tab, newline, carriage return, vertical tab, form feed) from both
  ends, matching CPython on ASCII input.
* The float comparison `overlap >= 0.6` of `_find_reply` is modelled by the
  exact cross-multiplied inequality `3 * |q_tokens| ≤ 5 * |overlap|`.  The two
  agree for every token count below `10^15`, far beyond any representable
  store, because consecutive rationals with such denominators are separated
  by more than the rounding error of double-precision division.
* Python's stable `list.sort(key=..., reverse=True)` of `_related_topics` is
  modelled by a stable insertion sort on exact rational scores (kept as
  numerator/denominator pairs; the denominator, a token count, is stored
  minus one so that it is positive by construction, mirroring the
  `if not q_tokens: continue` guard of the source).
* JSON values are modelled by an inductive `JVal`; reading the knowledge
  file is modelled by a `FileContent` argument that distinguishes a missing
  file, an empty file, undecodable text, and a decoded JSON value, which is
  exactly the case split `_load_knowledge` performs.  `json.dumps` followed
  by `json.loads` of a list of dicts reproduces the same JSON value, so
  `_save_knowledge` is modelled as storing the serialized value itself.
-/

/-- Text, modelled as a list of characters. -/
abbrev Str := List Char

/-- String literal helper: the character list of a Lean string literal. -/
def lit (s : String) : Str := s.data

/-- The ASCII whitespace characters stripped by Python's `str.strip()`. -/
def isPySpace (c : Char) : Bool :=
  c.toNat = 32 || c.toNat = 9 || c.toNat = 10 || c.toNat = 13 || c.toNat = 11 || c.toNat = 12

/-- Model of Python `str.strip()` on ASCII text: drop whitespace from both ends. -/
def pyStrip (s : Str) : Str :=
  ((s.dropWhile isPySpace).reverse.dropWhile isPySpace).reverse

/-- Model of Python `str.lower()` on ASCII text: lowercase each character. -/
def pyLower (s : Str) : Str := s.map Char.toLower

/-- Model of the Python substring test `p in l` for strings. -/
def hasSub (p l : Str) : Bool := decide (p <:+: l)

/-- Accumulator-based scanner for `re.findall(r"[a-z0-9]+", s)`: `acc` holds the
current run of alphanumeric characters in reverse. -/
def findTokensAux : Str → Str → List Str
  | [], acc => if acc.isEmpty then [] else [acc.reverse]
  | c :: rest, acc =>
    if ('a' ≤ c && c ≤ 'z') || ('0' ≤ c && c ≤ '9') then
      findTokensAux rest (c :: acc)
    else if acc.isEmpty then
      findTokensAux rest []
    else
      acc.reverse :: findTokensAux rest []

/-- Model of `re.findall(r"[a-z0-9]+", s)`: the maximal runs of characters in
`[a-z0-9]`, in order. -/
def findTokens (s : Str) : List Str := findTokensAux s []

/-- Model of `set(re.findall(r"[a-z0-9]+", s))`.  Python sets are used only for
cardinality and membership, so any duplicate-free list represents one. -/
def tokensOf (s : Str) : List Str := (findTokens s).dedup

/-- `|a ∩ b|` for token sets: the number of entries of the duplicate-free list
`a` that also occur in `b`.  Models `len(set_a & set_b)`. -/
def interCount (a b : List Str) : Nat := (a.filter (fun t => decide (t ∈ b))).length

/-- A JSON value, as produced by `json.loads`.  JSON numbers are modelled as
integers; no code path of the repository distinguishes float fields. -/
inductive JVal where
  | str (s : Str)
  | num (n : Int)
  | bool (b : Bool)
  | null
  | arr (elems : List JVal)
  | obj (fields : List (String × JVal))

/-- A JSON object / Python dict: an association list with unique keys
(`json.loads` collapses duplicate keys). -/
abbrev Obj := List (String × JVal)

/-- Python `dict.get(k, dflt)`. -/
def dictGet (d : Obj) (k : String) (dflt : JVal) : JVal :=
  match d.lookup k with
  | some v => v
  | none => dflt

/-- `item.get(k1, item.get(k2, ""))`: the dual-key field access used for
`question`/`q` and `answer`/`a`. -/
def dictGet2 (d : Obj) (k1 k2 : String) : JVal :=
  dictGet d k1 (dictGet d k2 (JVal.str []))

/-- Python's `isinstance(item, dict)` on a JSON-decoded value: true exactly
for objects. -/
def JVal.isDict : JVal → Bool
  | .obj _ => true
  | _ => false

/-- Python `repr` of a string: quote (single quote by default, double quote
when the content has a single quote but no double quote) and escape the
backslash, the quote character, and the common control characters. -/
def pyQuote (s : Str) : Str :=
  let q : Char := if '\'' ∈ s && !('"' ∈ s) then '"' else '\''
  let esc : Char → Str := fun c =>
    if c = '\\' then ['\\', '\\']
    else if c = q then ['\\', q]
    else if c = '\n' then ['\\', 'n']
    else if c = '\r' then ['\\', 'r']
    else if c = '\t' then ['\\', 't']
    else [c]
  q :: (s.flatMap esc) ++ [q]

/-- Comma-separated join, as in Python container `repr`. -/
def joinSep (sep : Str) : List Str → Str
  | [] => []
  | [x] => x
  | x :: y :: rest => x ++ sep ++ joinSep sep (y :: rest)

/-- Python `repr` of a JSON-decoded value. -/
def pyRepr : JVal → Str
  | .str s => pyQuote s
  | .num n => lit (toString n)
  | .bool b => if b then lit "True" else lit "False"
  | .null => lit "None"
  | .arr xs =>
    lit "[" ++ joinSep (lit ", ") (xs.attach.map (fun x => pyRepr x.1)) ++ lit "]"
  | .obj fs =>
    lit "\x7b" ++
      joinSep (lit ", ")
        (fs.attach.map (fun p => pyQuote (lit p.1.1) ++ lit ": " ++ pyRepr p.1.2)) ++
      lit "\x7d"
decreasing_by
  · have h := List.sizeOf_lt_of_mem x.2
    simp only [JVal.arr.sizeOf_spec]
    omega
  · have h := List.sizeOf_lt_of_mem p.2
    have h2 : sizeOf p.1.2 < sizeOf p.1 := by
      obtain ⟨a, b⟩ := p.1
      simp
    simp only [JVal.obj.sizeOf_spec]
    omega

/-- Python `str()` applied to a JSON-decoded value: a string is itself, any
other value prints as its `repr`. -/
def pyStr : JVal → Str
  | .str s => s
  | v => pyRepr v

/-- `str(item.get("question", item.get("q", "")))` — the raw question field. -/
def recQuestionRaw (item : Obj) : Str := pyStr (dictGet2 item "question" "q")

/-- `str(item.get("answer", item.get("a", "")))` — the raw answer field. -/
def recAnswerRaw (item : Obj) : Str := pyStr (dictGet2 item "answer" "a")

/-- The state of the knowledge file as `_load_knowledge` case-splits on it:
missing, zero-size, text `json.loads` rejects, or a decoded JSON value. -/
inductive FileContent where
  | missing
  | empty
  | malformed
  | parsed (v : JVal)

/-- Model of `_load_knowledge` (src/main.py lines 116-128): missing or empty
file gives the empty store; a `json.JSONDecodeError` is swallowed and gives
the empty store; a decoded list keeps only its dict elements; a decoded dict
is a one-record store; any other decoded value gives the empty store. -/
def loadKnowledge (file : FileContent) : List Obj :=
  match file with
  | .missing => []
  | .empty => []
  | .malformed => []
  | .parsed v =>
    match v with
    | .arr elems =>
      elems.filterMap (fun e =>
        match e with
        | .obj d => some d
        | _ => none)
    | .obj d => [d]
    | _ => []

/-- Model of `_save_knowledge` (src/main.py lines 156-157): the store is
serialized with `json.dumps` and overwrites the file; re-decoding that text
yields the same JSON value, namely the array of the record objects. -/
def saveKnowledge (knowledge : List Obj) : FileContent :=
  .parsed (.arr (knowledge.map JVal.obj))

/-- Model of `_smalltalk_reply` (src/main.py lines 26-47). -/
def smalltalkReply (message : Str) : Option Str :=
  let text := pyLower (pyStrip message)
  if text.isEmpty then some (lit "Please type a message so I can help.")
  else if (["hi", "hello", "hey", "yo", "good morning", "good afternoon",
      "good evening"].map lit).contains text then
    some (lit ("Hi, I can help with Kubernetes and OpenStack operations. " ++
      "Try: `pod stuck in termination`, `CrashLoopBackOff`, or " ++
      "`delete all available openstack volumes`."))
  else if (["thanks", "thank you", "thx"].map lit).contains text then
    some (lit "You are welcome. Share the next issue when ready.")
  else if (["help", "what can you do", "what can you help with"].map lit).contains text then
    some (lit ("I can troubleshoot Kubernetes and OpenStack issues, and generate safe scripts. " ++
      "Include exact errors and I will provide step-by-step commands."))
  else none

/-- The fixed operational vocabulary of `_is_incident_like`. -/
def incidentKeywords : List Str :=
  ["pod", "kubernetes", "k8s", "probe", "liveness", "readiness",
   "crashloopbackoff", "imagepullbackoff", "error", "failed", "timeout",
   "terminating", "restart", "openstack", "nova", "neutron", "cinder",
   "glance", "keystone", "volume", "instance", "server"].map lit

/-- Model of `_is_incident_like` (src/main.py lines 50-76): the tokenized
lowercased message shares at least one token with the fixed vocabulary. -/
def isIncidentLike (message : Str) : Bool :=
  (tokensOf (pyLower message)).any (fun t => incidentKeywords.contains t)

/-- The static script reply of `_openstack_script_reply`. -/
def openstackScriptText : Str :=
  lit ("Use this safe script (dry-run by default) to delete all OpenStack volumes in `available` state:\n\n" ++
    "```bash\n" ++
    "#!/usr/bin/env bash\n" ++
    "set -euo pipefail\n\n" ++
    "# Usage:\n" ++
    "#   ./delete_available_volumes.sh            # dry-run\n" ++
    "#   DRY_RUN=false ./delete_available_volumes.sh\n\n" ++
    "DRY_RUN=$\x7bDRY_RUN:-true\x7d\n\n" ++
    "mapfile -t volumes < <(openstack volume list -f value -c ID -c Status | awk '$2==\"available\" \x7bprint $1\x7d')\n\n" ++
    "if [ $\x7b#volumes[@]\x7d -eq 0 ]; then\n" ++
    "  echo \"No available volumes found.\"\n" ++
    "  exit 0\n" ++
    "fi\n\n" ++
    "echo \"Found $\x7b#volumes[@]\x7d available volumes\"\n" ++
    "for vol in \"$\x7bvolumes[@]\x7d\"; do\n" ++
    "  if [ \"$DRY_RUN\" = \"true\" ]; then\n" ++
    "    echo \"[DRY-RUN] openstack volume delete $vol\"\n" ++
    "  else\n" ++
    "    echo \"Deleting volume: $vol\"\n" ++
    "    openstack volume delete \"$vol\"\n" ++
    "  fi\n" ++
    "done\n" ++
    "```\n\n" ++
    "Before deleting, confirm tenant/project scope and snapshots/backups.")

/-- Model of `_openstack_script_reply` (src/main.py lines 79-113): the template
fires when the lowercased message contains "openstack", "volume",
"delete" or "remove", and "available". -/
def openstackScriptReply (message : Str) : Option Str :=
  let text := pyLower message
  if hasSub (lit "openstack") text && hasSub (lit "volume") text &&
      (hasSub (lit "delete") text || hasSub (lit "remove") text) &&
      hasSub (lit "available") text then
    some openstackScriptText
  else none

/-- The record-scanning loop of `_find_reply`; `text` is the normalized
message, `msgTokens` its token set. -/
def findReplyLoop (text : Str) (msgTokens : List Str) : List Obj → Option Str
  | [] => none
  | item :: rest =>
    let question := pyLower (pyStrip (recQuestionRaw item))
    let answer := pyStrip (recAnswerRaw item)
    if question.isEmpty || answer.isEmpty then findReplyLoop text msgTokens rest
    else if hasSub question text || hasSub text question then some answer
    else
      let qTokens := tokensOf question
      if qTokens.isEmpty then findReplyLoop text msgTokens rest
      else if 3 * qTokens.length ≤ 5 * interCount msgTokens qTokens then some answer
      else findReplyLoop text msgTokens rest

/-- Model of `_find_reply` (src/main.py lines 131-153).  The `overlap >= 0.6`
float test appears as `3 * |q_tokens| ≤ 5 * |msg_tokens ∩ q_tokens|`. -/
def findReply (message : Str) (knowledge : List Obj) : Option Str :=
  let text := pyLower (pyStrip message)
  if text.isEmpty then some (lit "Please type a message so I can help.")
  else findReplyLoop text (tokensOf text) knowledge

/-- The set of normalized existing questions built by `_track_unknown_issue`
(every store element is a dict, so the `isinstance` filter keeps all of them). -/
def existingQuestions (knowledge : List Obj) : List Str :=
  knowledge.map (fun item => pyLower (pyStrip (recQuestionRaw item)))

/-- The unresolved record `_track_unknown_issue` appends. -/
def unresolvedRecord (question : Str) : Obj :=
  [("question", .str question),
   ("answer", .str []),
   ("status", .str (lit "unresolved")),
   ("note", .str (lit "Captured from unknown user issue. Fill answer later."))]

/-- The guard of `_track_unknown_issue`: the stripped message is non-empty and
its lowercasing is not an existing normalized question.  The source reaches
the append and the save exactly when this holds. -/
def trackAppends (message : Str) (knowledge : List Obj) : Bool :=
  !(pyStrip message).isEmpty &&
    !(existingQuestions knowledge).contains (pyLower (pyStrip message))

/-- Model of `_track_unknown_issue` (src/main.py lines 160-181), returning the
store it leaves behind (unchanged, or with the unresolved record appended). -/
def trackUnknownIssue (message : Str) (knowledge : List Obj) : List Obj :=
  if trackAppends message knowledge then
    knowledge ++ [unresolvedRecord (pyStrip message)]
  else knowledge

/-- The `topic_list` of `_llm_reply`: "- question: answer" lines for the first
30 records with non-empty question and answer. -/
def kbTopicList (knowledge : List Obj) : List Str :=
  (knowledge.take 30).filterMap (fun item =>
    let question := pyStrip (recQuestionRaw item)
    let answer := pyStrip (recAnswerRaw item)
    if !question.isEmpty && !answer.isEmpty then
      some (lit "- " ++ question ++ lit ": " ++ answer)
    else none)

/-- The `kb_context` of `_llm_reply`. -/
def kbContext (knowledge : List Obj) : Str :=
  let topics := kbTopicList knowledge
  if topics.isEmpty then lit "- No curated KB answers yet." else joinSep (lit "\n") topics

/-- The grounding prompt of `_llm_reply`. -/
def llmPrompt (message : Str) (knowledge : List Obj) : Str :=
  lit ("You are GlueBot, a Kubernetes + OpenStack SRE assistant. " ++
    "Provide concise, actionable troubleshooting steps. " ++
    "For Kubernetes, include kubectl commands. For OpenStack, include openstack CLI commands. " ++
    "If user asks for scripts/automation, return a safe script with dry-run default and a short warning.\n\n" ++
    "Known KB:\n") ++ kbContext knowledge ++ lit "\n\nUser issue: " ++ message

/-- The configuration and network environment of one request: whether an API
key is configured, the model name, and a deterministic oracle giving the text
completion the provider returns for a prompt (`none` for a transport failure
or non-success response). -/
structure LlmConfig where
  hasKey : Bool
  model : Str
  response : Str → Option Str

/-- Model of `_llm_reply` (src/main.py lines 184-273): without a key it skips;
otherwise the completion for the grounding prompt is stripped, and an empty
result, like any transport failure, becomes "no reply". -/
def llmReply (cfg : LlmConfig) (message : Str) (knowledge : List Obj) : Option Str :=
  if cfg.hasKey then
    match cfg.response (llmPrompt message knowledge) with
    | none => none
    | some t => if (pyStrip t).isEmpty then none else some (pyStrip t)
  else none

/-- A token-overlap score `num / (denPred + 1)`.  The denominator (a question
token count) is stored minus one: `_related_topics` skips questions with no
tokens, so every scored record has a positive denominator. -/
structure Score where
  num : Nat
  denPred : Nat
deriving DecidableEq

/-- The denominator of a score. -/
def Score.den (s : Score) : Nat := s.denPred + 1

/-- `x ≤ y` on exact scores, by cross multiplication. -/
def scoreLe (x y : Score) : Bool := x.num * y.den ≤ y.num * x.den

/-- The `scored` list of `_related_topics`: each record with non-empty
question and answer and at least one question token contributes its overlap
score and (stripped, original-case) question; zero scores are dropped. -/
def scoredTopics (message : Str) (knowledge : List Obj) : List (Score × Str) :=
  knowledge.filterMap (fun item =>
    let question := pyStrip (recQuestionRaw item)
    let answer := pyStrip (recAnswerRaw item)
    if question.isEmpty then none
    else if answer.isEmpty then none
    else
      let qTokens := tokensOf (pyLower question)
      if qTokens.isEmpty then none
      else
        let overlap := interCount (tokensOf (pyLower message)) qTokens
        if 0 < overlap then some (⟨overlap, qTokens.length - 1⟩, question) else none)

/-- Stable descending insertion: `x` goes in front of the first entry whose
score does not exceed it, so earlier entries win ties. -/
def insertScoreDesc (x : Score × Str) : List (Score × Str) → List (Score × Str)
  | [] => [x]
  | y :: ys => if scoreLe y.1 x.1 then x :: y :: ys else y :: insertScoreDesc x ys

/-- Model of the stable `scored.sort(key=lambda x: x[0], reverse=True)`:
descending by score, ties keeping the original relative order. -/
def sortScoresDesc : List (Score × Str) → List (Score × Str)
  | [] => []
  | x :: xs => insertScoreDesc x (sortScoresDesc xs)

/-- Model of `_related_topics` (src/main.py lines 276-294) at the default
limit 3: the questions of the top-scored records. -/
def relatedTopics (message : Str) (knowledge : List Obj) : List Str :=
  ((sortScoresDesc (scoredTopics message knowledge)).take 3).map (fun p => p.2)

/-- The "related topics" suffix appended by `_fallback_reply`. -/
def relatedText (message : Str) (knowledge : List Obj) : Str :=
  let related := relatedTopics message knowledge
  if related.isEmpty then []
  else lit "\nRelated topics you can ask: " ++ joinSep (lit ", ") related

/-- The liveness-500 checklist text of `_fallback_reply`. -/
def fallbackLiveness500Text : Str :=
  lit ("Try this checklist for liveness probe 500 errors:\n" ++
    "1) Confirm the probe path/port matches your app endpoint.\n" ++
    "2) Check app logs around probe failures (`kubectl logs <pod> -c <container>`).\n" ++
    "3) Increase `initialDelaySeconds` and `timeoutSeconds` if startup is slow.\n" ++
    "4) Verify dependencies (DB/cache/API) required by the health endpoint.\n" ++
    "5) Use `kubectl describe pod <pod>` to confirm probe failure events.")

/-- The general probe-troubleshooting text of `_fallback_reply`. -/
def fallbackProbeText : Str :=
  lit ("Probe issue detected. Verify probe path, port, and timing fields " ++
    "(`initialDelaySeconds`, `timeoutSeconds`, `periodSeconds`, `failureThreshold`), " ++
    "then inspect events with `kubectl describe pod <pod>` and container logs.")

/-- The OpenStack-troubleshooting text of `_fallback_reply`. -/
def fallbackOpenstackText : Str :=
  lit ("OpenStack issue detected. Start with: " ++
    "`openstack token issue`, `openstack server list`, `openstack volume list`, " ++
    "`openstack network agent list`, then check service logs and project quotas.")

/-- The generic Kubernetes-pod text of `_fallback_reply`. -/
def fallbackGenericText : Str :=
  lit ("I do not have an exact match yet, but start with: " ++
    "`kubectl describe pod <pod>`, `kubectl logs <pod> -c <container> --previous`, " ++
    "and check recent events in the namespace.")

/-- Model of `_fallback_reply` (src/main.py lines 297-336). -/
def fallbackReply (message : Str) (knowledge : List Obj) : Str :=
  let text := pyLower message
  let relatedT := relatedText message knowledge
  if hasSub (lit "liveness") text && hasSub (lit "500") text then
    fallbackLiveness500Text ++ relatedT
  else if hasSub (lit "readiness") text || hasSub (lit "liveness") text ||
      hasSub (lit "probe") text then
    fallbackProbeText ++ relatedT
  else if hasSub (lit "openstack") text || hasSub (lit "nova") text ||
      hasSub (lit "neutron") text || hasSub (lit "cinder") text then
    fallbackOpenstackText ++ relatedT
  else
    fallbackGenericText ++ relatedT

/-- Model of the `chat` endpoint (src/main.py lines 344-379): the pipeline of
smalltalk, knowledge lookup, script template, incident tracking (a side
effect on the store, persisted exactly when a record is appended), LLM
delegation, and fallback.  Result: (reply, source) and the file state left
behind. -/
def chat (cfg : LlmConfig) (message : Str) (file : FileContent) :
    (Str × Str) × FileContent :=
  let knowledge := loadKnowledge file
  match smalltalkReply message with
  | some reply => ((reply, lit "intent"), file)
  | none =>
    match findReply message knowledge with
    | some reply => ((reply, lit "knowledge.json"), file)
    | none =>
      match openstackScriptReply message with
      | some reply => ((reply, lit "template:openstack_script"), file)
      | none =>
        let doTrack := isIncidentLike message && trackAppends message knowledge
        let tracked := if isIncidentLike message then trackUnknownIssue message knowledge
          else knowledge
        let file2 := if doTrack then saveKnowledge tracked else file
        match llmReply cfg message tracked with
        | some reply => ((reply, lit "llm:" ++ cfg.model), file2)
        | none =>
          if cfg.hasKey then
            ((fallbackReply message tracked, lit "fallback:llm_unavailable"), file2)
          else
            ((fallbackReply message tracked, lit "fallback:no_llm_api_key"), file2)

/-! Specification-side definitions.  Each follows the words of a claim and is
compared with the corresponding definition translated from the source. -/

/-- Claim C3's per-record matching rule: a record with non-empty normalized
question and answer matches when the normalized question and message contain
one another, or otherwise when the question has tokens and the overlap ratio
reaches 0.6 (as an exact rational comparison). -/
def recMatchesC3 (text : Str) (msgTokens : List Str) (item : Obj) : Bool :=
  let question := pyLower (pyStrip (recQuestionRaw item))
  let answer := pyStrip (recAnswerRaw item)
  !question.isEmpty && !answer.isEmpty &&
    (hasSub question text || hasSub text question ||
      (!(tokensOf question).isEmpty &&
        decide (3 * (tokensOf question).length ≤
          5 * interCount msgTokens (tokensOf question))))

/-- Claim C3's description of the lookup: the first record (in store order)
satisfying the matching rule yields its answer; otherwise there is no match. -/
def findReplySpecC3 (message : Str) (knowledge : List Obj) : Option Str :=
  let text := pyLower (pyStrip message)
  (knowledge.find? (recMatchesC3 text (tokensOf text))).map
    (fun item => pyStrip (recAnswerRaw item))

/-- Claim C5's description of the pipeline without the incident-tracking side
effect: identical stages, but the store is never mutated or persisted. -/
def chatNoTrack (cfg : LlmConfig) (message : Str) (file : FileContent) :
    (Str × Str) × FileContent :=
  let knowledge := loadKnowledge file
  match smalltalkReply message with
  | some reply => ((reply, lit "intent"), file)
  | none =>
    match findReply message knowledge with
    | some reply => ((reply, lit "knowledge.json"), file)
    | none =>
      match openstackScriptReply message with
      | some reply => ((reply, lit "template:openstack_script"), file)
      | none =>
        match llmReply cfg message knowledge with
        | some reply => ((reply, lit "llm:" ++ cfg.model), file)
        | none =>
          if cfg.hasKey then
            ((fallbackReply message knowledge, lit "fallback:llm_unavailable"), file)
          else
            ((fallbackReply message knowledge, lit "fallback:no_llm_api_key"), file)

/-- Claim C8's order on indexed scored records: strictly greater score first,
and among equal scores the smaller original index first. -/
def scoreLexLe (a b : Nat × (Score × Str)) : Bool :=
  decide (b.2.1.num * a.2.1.den < a.2.1.num * b.2.1.den) ||
    (decide (a.2.1.num * b.2.1.den = b.2.1.num * a.2.1.den) && decide (a.1 ≤ b.1))

/-- Claim C8's description of the sort: attach original positions, sort by
descending score with equal scores in original relative order (a total
antisymmetric order, realized here with a different algorithm, the standard
library's merge sort), and forget the positions. -/
def sortedScoresSpecC8 (l : List (Score × Str)) : List (Score × Str) :=
  ((l.enum).mergeSort scoreLexLe).map (fun p => p.2)

/-- Claim C8's description of the Fallback Responder: the first matching
keyword group picks the reply text, and every branch ends with the
related-topics suffix built from the top 3 stable-sorted scored questions
(no suffix when no question scores positively). -/
def fallbackSpecC8 (message : Str) (knowledge : List Obj) : Str :=
  let text := pyLower message
  let topics :=
    ((sortedScoresSpecC8 (scoredTopics message knowledge)).take 3).map (fun p => p.2)
  let suffix :=
    if topics.isEmpty then []
    else lit "\nRelated topics you can ask: " ++ joinSep (lit ", ") topics
  (if hasSub (lit "liveness") text && hasSub (lit "500") text then
    fallbackLiveness500Text
  else if hasSub (lit "readiness") text || hasSub (lit "liveness") text ||
      hasSub (lit "probe") text then
    fallbackProbeText
  else if hasSub (lit "openstack") text || hasSub (lit "nova") text ||
      hasSub (lit "neutron") text || hasSub (lit "cinder") text then
    fallbackOpenstackText
  else fallbackGenericText) ++ suffix

/-- The OpenStack keyword group of `_fallback_reply` (claim C10): exactly the
four service names "openstack", "nova", "neutron", "cinder". -/
def fallbackOpenstackGroup (message : Str) : Bool :=
  hasSub (lit "openstack") (pyLower message) || hasSub (lit "nova") (pyLower message) ||
    hasSub (lit "neutron") (pyLower message) || hasSub (lit "cinder") (pyLower message)

/-! Concrete fixtures used by witnesses and counterexamples. -/

/-- A request environment with no API key configured. -/
def demoCfg : LlmConfig := ⟨false, lit "gpt-4.1-mini", fun _ => none⟩

/-- A store whose single curated record matches the canonical volume-deletion
request by direct containment. -/
def c1Store : List Obj :=
  [[("question", .str (lit "delete all available openstack volumes")),
    ("answer", .str (lit "See the approved runbook."))]]

/-- A store that already contains the unresolved question "pod error". -/
def podErrorStore : List Obj := [unresolvedRecord (lit "pod error")]

/-! General lemmas about the text primitives. -/

set_option maxRecDepth 16384

theorem dropWhile_head_false {p : Char → Bool} :
    ∀ {l : Str} {c : Char} {cs : Str}, l.dropWhile p = c :: cs → p c = false := by
  intro l
  induction l with
  | nil => intro c cs h; simp at h
  | cons a as ih =>
    intro c cs h
    rw [List.dropWhile_cons] at h
    split at h
    · exact ih h
    · cases h
      simpa using ‹¬ p a = true›

theorem dropWhile_idem (p : Char → Bool) (l : Str) :
    (l.dropWhile p).dropWhile p = l.dropWhile p := by
  cases h : l.dropWhile p with
  | nil => rfl
  | cons c cs =>
    rw [List.dropWhile_cons_of_neg]
    simp [dropWhile_head_false h]

theorem head_eq_of_pre {l v : Str} {c : Char} {cs : Str}
    (h : l <+: v) (hl : l = c :: cs) : ∃ vs, v = c :: vs := by
  obtain ⟨r, rfl⟩ := h
  subst hl
  exact ⟨cs ++ r, by simp⟩

theorem pyStrip_reverse_eq (s : Str) :
    (pyStrip s).reverse = (s.dropWhile isPySpace).reverse.dropWhile isPySpace := by
  simp [pyStrip]

theorem pyStrip_dropWhile (s : Str) :
    (pyStrip s).dropWhile isPySpace = pyStrip s := by
  have hpre : pyStrip s <+: s.dropWhile isPySpace := by
    have hsuf : (s.dropWhile isPySpace).reverse.dropWhile isPySpace <:+
        (s.dropWhile isPySpace).reverse := List.dropWhile_suffix _
    have h2 := ( List.reverse_prefix).mpr hsuf
    rw [List.reverse_reverse] at h2
    exact h2
  cases hs : pyStrip s with
  | nil => rfl
  | cons c cs =>
    obtain ⟨vs, hv⟩ := head_eq_of_pre hpre hs
    have hc : isPySpace c = false := dropWhile_head_false hv
    rw [List.dropWhile_cons_of_neg]
    simp [hc]

theorem pyStrip_idem (s : Str) : pyStrip (pyStrip s) = pyStrip s := by
  have h1 : pyStrip (pyStrip s) =
      ((pyStrip s).reverse.dropWhile isPySpace).reverse := by
    rw [pyStrip]
    rw [pyStrip_dropWhile]
  rw [h1, pyStrip_reverse_eq, dropWhile_idem, ← pyStrip_reverse_eq, List.reverse_reverse]

theorem toNat_ofNat_valid {n : Nat} (h : n < 55296) : (Char.ofNat n).toNat = n := by
  rw [Char.ofNat, dif_pos (Or.inl h)]
  simp [Char.ofNatAux, Char.toNat, UInt32.toNat, BitVec.toNat_ofNatLt]

theorem isPySpace_toLower (c : Char) : isPySpace c.toLower = isPySpace c := by
  rw [Char.toLower]
  split
  · rename_i h
    have hrange : 65 ≤ c.toNat ∧ c.toNat ≤ 90 := by
      constructor <;> omega
    have hval : (Char.ofNat (c.toNat + 32)).toNat = c.toNat + 32 :=
      toNat_ofNat_valid (by omega)
    have h1 : isPySpace (Char.ofNat (c.toNat + 32)) = false := by
      simp only [isPySpace, hval]
      simp only [Bool.or_eq_false_iff, decide_eq_false_iff_not]
      omega
    have h2 : isPySpace c = false := by
      simp only [isPySpace]
      simp only [Bool.or_eq_false_iff, decide_eq_false_iff_not]
      omega
    rw [h1, h2]
  · rfl

theorem pyStrip_pyLower (s : Str) : pyStrip (pyLower s) = pyLower (pyStrip s) := by
  have hpred : (isPySpace ∘ Char.toLower) = isPySpace := funext isPySpace_toLower
  simp only [pyStrip, pyLower]
  rw [List.dropWhile_map, hpred, ← List.map_reverse, List.dropWhile_map, hpred,
    ← List.map_reverse]

theorem sub_dropWhile {p l : Str} {ws : Char → Bool} (h : p <:+: l) (hne : p ≠ [])
    (hws : ∀ c ∈ p, ws c = false) : p <:+: l.dropWhile ws := by
  obtain ⟨s, t, rfl⟩ := h
  induction s with
  | nil =>
    cases hp : p with
    | nil => exact absurd hp hne
    | cons c cs =>
      subst hp
      rw [List.nil_append, List.cons_append, List.dropWhile_cons_of_neg]
      · exact ⟨[], t, rfl⟩
      · simp [hws c (by simp)]
  | cons a s ih =>
    rw [List.cons_append, List.cons_append, List.dropWhile_cons]
    split
    · exact ih
    · exact ⟨a :: s, t, rfl⟩

theorem sub_pyStrip {p l : Str} (h : p <:+: l) (hne : p ≠ [])
    (hws : ∀ c ∈ p, isPySpace c = false) : p <:+: pyStrip l := by
  have h1 : p <:+: l.dropWhile isPySpace := sub_dropWhile h hne hws
  have h2 : p.reverse <:+: (l.dropWhile isPySpace).reverse :=
    ( List.reverse_infix).mpr h1
  have h3 : p.reverse <:+: (l.dropWhile isPySpace).reverse.dropWhile isPySpace :=
    sub_dropWhile h2 (by simpa using hne) (by intro c hc; exact hws c (by simpa using hc))
  have h4 := ( List.reverse_infix).mpr h3
  rw [List.reverse_reverse] at h4
  exact h4

theorem hasSub_iff {p l : Str} : hasSub p l = true ↔ p <:+: l := by
  simp [hasSub]

theorem ne_nil_of_sub {p l : Str} (h : p <:+: l) (hne : p ≠ []) : l ≠ [] := by
  intro hl
  subst hl
  exact hne (List.eq_nil_of_sublist_nil h.sublist)

/-! Lemmas about records and the store. -/

theorem recQuestionRaw_unresolved (q : Str) :
    recQuestionRaw (unresolvedRecord q) = q := rfl

theorem recAnswerRaw_unresolved (q : Str) :
    recAnswerRaw (unresolvedRecord q) = [] := rfl

theorem existingQuestions_append (ks1 ks2 : List Obj) :
    existingQuestions (ks1 ++ ks2) = existingQuestions ks1 ++ existingQuestions ks2 :=
  List.map_append _ _ _

theorem loadKnowledge_save (ks : List Obj) : loadKnowledge (saveKnowledge ks) = ks := by
  induction ks with
  | nil => rfl
  | cons d rest ih =>
    have h : loadKnowledge (saveKnowledge (d :: rest)) =
        d :: loadKnowledge (saveKnowledge rest) := rfl
    rw [h, ih]

theorem trackAppends_of_mem {msg : Str} {ks : List Obj}
    (h : pyLower (pyStrip msg) ∈ existingQuestions ks) :
    trackAppends msg ks = false := by
  have hc : (existingQuestions ks).contains (pyLower (pyStrip msg)) = true :=
    List.elem_eq_true_of_mem h
  simp only [trackAppends, hc, Bool.not_true, Bool.and_false]

theorem trackUnknownIssue_of_mem {msg : Str} {ks : List Obj}
    (h : pyLower (pyStrip msg) ∈ existingQuestions ks) :
    trackUnknownIssue msg ks = ks := by
  simp [trackUnknownIssue, trackAppends_of_mem h]

theorem trackUnknownIssue_of_appends {msg : Str} {ks : List Obj}
    (h : trackAppends msg ks = true) :
    trackUnknownIssue msg ks = ks ++ [unresolvedRecord (pyStrip msg)] := by
  simp [trackUnknownIssue, h]

theorem existingQuestions_track_append (msg : Str) (ks : List Obj)
    (h : trackAppends msg ks = true) :
    existingQuestions (trackUnknownIssue msg ks) =
      existingQuestions ks ++ [pyLower (pyStrip msg)] := by
  rw [trackUnknownIssue_of_appends h, existingQuestions_append]
  simp [existingQuestions, recQuestionRaw_unresolved, pyStrip_idem]

/-! Claim C7. -/

/-- Claim C7: loading the knowledge store from a missing file, an empty file,
or malformed (non-JSON-decodable) content yields the empty store.  The load
is modelled as a total function, mirroring the source's swallowing of
`json.JSONDecodeError`, so no error reaches the caller of `chat`. -/
theorem c7_load_error_cases :
    loadKnowledge .missing = [] ∧ loadKnowledge .empty = [] ∧
      loadKnowledge .malformed = [] :=
  ⟨rfl, rfl, rfl⟩

/-! Claim C9. -/

theorem loadKnowledge_arr (elems : List JVal) :
    loadKnowledge (.parsed (.arr elems)) = elems.filterMap (fun e =>
      match e with
      | JVal.obj d => some d
      | _ => none) := rfl

theorem load_elem_none {e : JVal} (h : e.isDict = false) :
    loadKnowledge (.parsed (.arr [e])) = [] := by
  cases e with
  | obj fs =>
    have ht : (JVal.obj fs).isDict = true := rfl
    rw [ht] at h
    exact absurd h (by simp)
  | str s => rfl
  | num n => rfl
  | bool b => rfl
  | null => rfl
  | arr es => rfl

/-- Claim C9: a top-level JSON object loads as the one-record store holding
that object; a top-level array keeps exactly its dict elements, in order,
and silently drops every non-dict element (strings, numbers, booleans, null,
and nested arrays — `isDict` is characterized on every constructor), so in
particular a dict-free array loads as the empty store; and a top-level
string, number, boolean, or null loads as the empty store. -/
theorem c9_load_shapes :
    (∀ d : Obj, loadKnowledge (.parsed (.obj d)) = [d]) ∧
    (∀ xs ys : List JVal, ∀ d : Obj,
      loadKnowledge (.parsed (.arr (xs ++ JVal.obj d :: ys))) =
        loadKnowledge (.parsed (.arr xs)) ++ d :: loadKnowledge (.parsed (.arr ys))) ∧
    (∀ xs ys : List JVal, ∀ e : JVal, e.isDict = false →
      loadKnowledge (.parsed (.arr (xs ++ e :: ys))) =
        loadKnowledge (.parsed (.arr (xs ++ ys)))) ∧
    (∀ elems : List JVal, (∀ e ∈ elems, e.isDict = false) →
      loadKnowledge (.parsed (.arr elems)) = []) ∧
    (∀ s : Str, (JVal.str s).isDict = false) ∧
    (∀ n : Int, (JVal.num n).isDict = false) ∧
    (∀ b : Bool, (JVal.bool b).isDict = false) ∧
    JVal.null.isDict = false ∧
    (∀ es : List JVal, (JVal.arr es).isDict = false) ∧
    (∀ fs : Obj, (JVal.obj fs).isDict = true) ∧
    (∀ s : Str, loadKnowledge (.parsed (.str s)) = []) ∧
    (∀ n : Int, loadKnowledge (.parsed (.num n)) = []) ∧
    (∀ b : Bool, loadKnowledge (.parsed (.bool b)) = []) ∧
    loadKnowledge (.parsed .null) = [] := by
  refine ⟨fun d => rfl, ?_, ?_, ?_, fun s => rfl, fun n => rfl, fun b => rfl, rfl,
    fun es => rfl, fun fs => rfl, fun s => rfl, fun n => rfl, fun b => rfl, rfl⟩
  · intro xs ys d
    simp [loadKnowledge_arr, List.filterMap_append, List.filterMap_cons]
  · intro xs ys e he
    have h1 := load_elem_none he
    rw [loadKnowledge_arr] at h1 ⊢
    rw [show xs ++ e :: ys = xs ++ [e] ++ ys from by simp, List.filterMap_append,
      List.filterMap_append, h1, List.append_nil, loadKnowledge_arr,
      List.filterMap_append]
  · intro elems hall
    induction elems with
    | nil => rfl
    | cons e rest ih =>
      have h1 := load_elem_none (hall e (by simp))
      rw [loadKnowledge_arr] at h1 ⊢
      rw [show e :: rest = [e] ++ rest from rfl, List.filterMap_append, h1,
        List.nil_append, ← loadKnowledge_arr]
      exact ih (fun e2 he2 => hall e2 (by simp [he2]))

/-- Witness for claim C9's theorem: the three-element dict-free array holding
null, a string, and a nested array loads as the empty store. -/
theorem c9_witness :
    loadKnowledge (.parsed (.arr [JVal.null, JVal.str (lit "x"),
        JVal.arr [JVal.num 3]])) = [] :=
  c9_load_shapes.2.2.2.1 [JVal.null, JVal.str (lit "x"), JVal.arr [JVal.num 3]]
    (by decide)

/-! Claim C2. -/

/-- Claim C2 counterexample: starting from the empty store, tracking
"pod error" and then "pod error again" appends both records even though the
first normalized question is a substring of the second, so the tracker does
not enforce the claimed substring-dedup — only exact equality. -/
theorem c2_counterexample :
    (trackUnknownIssue (lit "pod error again")
        (trackUnknownIssue (lit "pod error") [])).length = 2 ∧
      existingQuestions (trackUnknownIssue (lit "pod error again")
        (trackUnknownIssue (lit "pod error") [])) =
        [lit "pod error", lit "pod error again"] ∧
      hasSub (lit "pod error") (lit "pod error again") = true := by
  refine ⟨?_, ?_, ?_⟩ <;> decide

/-- Claim C2 (amended): the Incident Tracker's dedup is exact case-insensitive
equality of normalized questions: an append whose normalized question already
occurs is suppressed, and consequently the tracker preserves the invariant
that all normalized questions of the store are pairwise distinct. -/
theorem c2_track_dedup_exact (msg : Str) (ks : List Obj) :
    (pyLower (pyStrip msg) ∈ existingQuestions ks → trackUnknownIssue msg ks = ks) ∧
      ((existingQuestions ks).Nodup →
        (existingQuestions (trackUnknownIssue msg ks)).Nodup) := by
  constructor
  · exact fun h => trackUnknownIssue_of_mem h
  · intro hnd
    by_cases hta : trackAppends msg ks = true
    · rw [existingQuestions_track_append msg ks hta]
      have hnotmem : pyLower (pyStrip msg) ∉ existingQuestions ks := by
        intro hmem
        rw [trackAppends_of_mem hmem] at hta
        exact Bool.false_ne_true hta
      simp [List.nodup_append, hnd, hnotmem]
    · have : trackUnknownIssue msg ks = ks := by
        simp [trackUnknownIssue, hta]
      rw [this]
      exact hnd

/-- Witness for claim C2's theorem at a concrete input: the store already
holds "pod error" and the message "Pod Error" normalizes to it, so nothing
is appended and distinctness is preserved. -/
theorem c2_witness :
    trackUnknownIssue (lit "Pod Error") podErrorStore = podErrorStore ∧
      (existingQuestions (trackUnknownIssue (lit "Pod Error") podErrorStore)).Nodup :=
  ⟨(c2_track_dedup_exact (lit "Pod Error") podErrorStore).1 (by decide),
   (c2_track_dedup_exact (lit "Pod Error") podErrorStore).2 (by decide)⟩

/-! Claim C6. -/

theorem trackAppends_true {msg : Str} {ks : List Obj} (h1 : pyStrip msg ≠ [])
    (h2 : pyLower (pyStrip msg) ∉ existingQuestions ks) :
    trackAppends msg ks = true := by
  simp [trackAppends, List.isEmpty_iff, h1, h2]

theorem track_foldl : ∀ (msgs : List Str) (ks : List Obj),
    (∀ m ∈ msgs, pyStrip m ≠ []) →
    (msgs.map (fun m => pyLower (pyStrip m))).Nodup →
    (∀ m ∈ msgs, pyLower (pyStrip m) ∉ existingQuestions ks) →
    msgs.foldl (fun acc m => trackUnknownIssue m acc) ks =
      ks ++ msgs.map (fun m => unresolvedRecord (pyStrip m))
  | [], ks, _, _, _ => by simp
  | m :: rest, ks, hne, hnodup, hfresh => by
    have hta : trackAppends m ks = true :=
      trackAppends_true (hne m (by simp)) (hfresh m (by simp))
    have hstep : trackUnknownIssue m ks = ks ++ [unresolvedRecord (pyStrip m)] :=
      trackUnknownIssue_of_appends hta
    have hmapnd : (rest.map (fun m => pyLower (pyStrip m))).Nodup :=
      (List.nodup_cons.mp (by simpa using hnodup)).2
    have hheadnot : pyLower (pyStrip m) ∉ rest.map (fun m => pyLower (pyStrip m)) :=
      (List.nodup_cons.mp (by simpa using hnodup)).1
    have hfresh2 : ∀ m2 ∈ rest,
        pyLower (pyStrip m2) ∉ existingQuestions (ks ++ [unresolvedRecord (pyStrip m)]) := by
      intro m2 hm2
      rw [existingQuestions_append]
      intro hmem
      rcases List.mem_append.mp hmem with hmem1 | hmem2
      · exact hfresh m2 (by simp [hm2]) hmem1
      · have : pyLower (pyStrip m2) = pyLower (pyStrip m) := by
          simpa [existingQuestions, recQuestionRaw_unresolved, pyStrip_idem] using hmem2
        exact hheadnot (this ▸ List.mem_map_of_mem _ hm2)
    have ih := track_foldl rest (ks ++ [unresolvedRecord (pyStrip m)])
      (fun m2 hm2 => hne m2 (by simp [hm2])) hmapnd hfresh2
    simp only [List.foldl_cons, hstep, ih, List.map_cons]
    simp

/-- Claim C6 counterexample: with a store already holding the unresolved
question "pod error", tracking the single message "pod error" (N = 1,
trivially distinct normalized questions) appends nothing, so persisting and
reloading yields the original one-record store instead of the original
records followed by one new unresolved record. -/
theorem c6_counterexample :
    loadKnowledge (saveKnowledge (trackUnknownIssue (lit "pod error") podErrorStore)) =
        podErrorStore ∧
      podErrorStore.length = 1 ∧
      (trackUnknownIssue (lit "pod error") podErrorStore).length = 1 := by
  refine ⟨?_, ?_, ?_⟩
  · rw [trackUnknownIssue_of_mem (by decide), loadKnowledge_save]
  · rfl
  · rw [trackUnknownIssue_of_mem (by decide)]
    rfl

/-- Claim C6 (amended): starting from any store, appending N unresolved
records via the Incident Tracker — for N messages that are non-empty after
trimming, whose normalized questions are pairwise distinct and distinct from
every existing record's normalized question — persisting, and reloading
yields the original records followed by the N new records in append order,
each with answer "" and status "unresolved". -/
theorem c6_roundtrip (ks : List Obj) (msgs : List Str)
    (hne : ∀ m ∈ msgs, pyStrip m ≠ [])
    (hnodup : (msgs.map (fun m => pyLower (pyStrip m))).Nodup)
    (hfresh : ∀ m ∈ msgs, pyLower (pyStrip m) ∉ existingQuestions ks) :
    loadKnowledge (saveKnowledge
        (msgs.foldl (fun acc m => trackUnknownIssue m acc) ks)) =
      ks ++ msgs.map (fun m => unresolvedRecord (pyStrip m)) ∧
    ∀ m : Str, recAnswerRaw (unresolvedRecord (pyStrip m)) = [] ∧
      dictGet (unresolvedRecord (pyStrip m)) "status" .null = .str (lit "unresolved") := by
  refine ⟨?_, fun m => ⟨rfl, rfl⟩⟩
  rw [loadKnowledge_save]
  exact track_foldl msgs ks hne hnodup hfresh

/-- Witness for claim C6's theorem: from the empty store, tracking the two
distinct messages "pod stuck" and "volume error" and reloading yields exactly
their two unresolved records. -/
theorem c6_witness :
    loadKnowledge (saveKnowledge
        (([lit "pod stuck", lit "volume error"]).foldl
          (fun acc m => trackUnknownIssue m acc) [])) =
      [] ++ [lit "pod stuck", lit "volume error"].map
        (fun m => unresolvedRecord (pyStrip m)) ∧
    ∀ m : Str, recAnswerRaw (unresolvedRecord (pyStrip m)) = [] ∧
      dictGet (unresolvedRecord (pyStrip m)) "status" .null = .str (lit "unresolved") :=
  c6_roundtrip [] [lit "pod stuck", lit "volume error"]
    (by decide) (by decide) (by decide)

/-! Claim C3. -/

theorem findReplyLoop_eq_find (text : Str) (mt : List Str) :
    ∀ ks : List Obj, findReplyLoop text mt ks =
      (ks.find? (recMatchesC3 text mt)).map (fun item => pyStrip (recAnswerRaw item))
  | [] => rfl
  | item :: rest => by
    have ih := findReplyLoop_eq_find text mt rest
    by_cases hqe : (pyLower (pyStrip (recQuestionRaw item))).isEmpty = true
    · have hm : recMatchesC3 text mt item = false := by simp [recMatchesC3, hqe]
      simp [findReplyLoop, List.find?_cons, hqe, hm, ih]
    · by_cases hae : (pyStrip (recAnswerRaw item)).isEmpty = true
      · have hm : recMatchesC3 text mt item = false := by simp [recMatchesC3, hae]
        simp [findReplyLoop, List.find?_cons, hqe, hae, hm, ih]
      · by_cases hc : (hasSub (pyLower (pyStrip (recQuestionRaw item))) text ||
            hasSub text (pyLower (pyStrip (recQuestionRaw item)))) = true
        · have hm : recMatchesC3 text mt item = true := by
            simp only [recMatchesC3, Bool.and_eq_true, Bool.or_eq_true]
            refine ⟨⟨by simp [hqe], by simp [hae]⟩, ?_⟩
            have hc2 : hasSub (pyLower (pyStrip (recQuestionRaw item))) text = true ∨
                hasSub text (pyLower (pyStrip (recQuestionRaw item))) = true := by
              simpa using hc
            rcases hc2 with h | h
            · exact Or.inl (Or.inl h)
            · exact Or.inl (Or.inr h)
          simp [findReplyLoop, List.find?_cons, hqe, hae, hc, hm]
        · by_cases hte : (tokensOf (pyLower (pyStrip (recQuestionRaw item)))).isEmpty = true
          · have hm : recMatchesC3 text mt item = false := by
              simp [recMatchesC3, hqe, hae, hc, hte]
            simp [findReplyLoop, List.find?_cons, hqe, hae, hc, hte, hm, ih]
          · by_cases hr : 3 * (tokensOf (pyLower (pyStrip (recQuestionRaw item)))).length ≤
                5 * interCount mt (tokensOf (pyLower (pyStrip (recQuestionRaw item))))
            · have hm : recMatchesC3 text mt item = true := by
                simp only [recMatchesC3, Bool.and_eq_true, Bool.or_eq_true]
                exact ⟨⟨by simp [hqe], by simp [hae]⟩,
                  Or.inr ⟨by simp [hte], by simpa using hr⟩⟩
              simp [findReplyLoop, List.find?_cons, hqe, hae, hc, hte, hr, hm]
            · have hm : recMatchesC3 text mt item = false := by
                simp [recMatchesC3, hqe, hae, hc, hte, hr]
              simp [findReplyLoop, List.find?_cons, hqe, hae, hc, hte, hr, hm, ih]

/-- Claim C3 counterexample: for a whitespace-only message (and, here, the
empty store) no record satisfies either matching rule, yet `_find_reply` does
not report "no match": it returns the fixed prompt reply, which the
claim-side lookup `findReplySpecC3` does not produce. -/
theorem c3_counterexample :
    findReply (lit " ") [] = some (lit "Please type a message so I can help.") ∧
      findReplySpecC3 (lit " ") [] = none := ⟨rfl, rfl⟩

/-- Claim C3 (amended): for every message that is non-empty after trimming,
the knowledge lookup evaluates records in store order and returns the first
record's (stripped) answer whose non-empty normalized question and non-empty
answer match by containment, or else by token-overlap ratio at least 0.6 on a
tokenizable question; with no satisfying record it reports no match.  (A
whitespace-only message instead short-circuits to the fixed prompt reply.) -/
theorem c3_lookup_matches_spec (msg : Str) (ks : List Obj)
    (h : pyStrip msg ≠ []) :
    findReply msg ks = findReplySpecC3 msg ks := by
  have hne : (pyLower (pyStrip msg)).isEmpty = false := by
    simp [pyLower, List.isEmpty_iff, h]
  rw [findReply, findReplySpecC3]
  simp only [hne, Bool.false_eq_true, if_false]
  exact findReplyLoop_eq_find _ _ ks

/-- Witness for claim C3's theorem: a concrete non-empty message against the
one-record curated store. -/
theorem c3_witness :
    pyStrip (lit "openstack volume question") ≠ [] ∧
      findReply (lit "openstack volume question") c1Store =
        findReplySpecC3 (lit "openstack volume question") c1Store :=
  ⟨by decide, c3_lookup_matches_spec (lit "openstack volume question") c1Store (by decide)⟩

/-! Claim C5. -/

theorem filterMap_take_singleton_none {α β : Type _} (f : α → Option β) (k : Nat) (x : α)
    (hx : f x = none) : (List.take k [x]).filterMap f = [] := by
  cases k with
  | zero => rfl
  | succ n => simp [hx]

theorem kbTopicList_append_empty {ks : List Obj} {r : Obj}
    (hr : pyStrip (recAnswerRaw r) = []) :
    kbTopicList (ks ++ [r]) = kbTopicList ks := by
  unfold kbTopicList
  rw [List.take_append_eq_append_take, List.filterMap_append, filterMap_take_singleton_none]
  · simp
  · simp [hr]

theorem scoredTopics_append_empty (m : Str) {ks : List Obj} {r : Obj}
    (hr : pyStrip (recAnswerRaw r) = []) :
    scoredTopics m (ks ++ [r]) = scoredTopics m ks := by
  unfold scoredTopics
  rw [List.filterMap_append]
  simp [hr]

theorem kbContext_track (msg : Str) (ks : List Obj) :
    kbContext (trackUnknownIssue msg ks) = kbContext ks := by
  unfold trackUnknownIssue
  split
  · unfold kbContext
    rw [kbTopicList_append_empty (by rw [recAnswerRaw_unresolved]; rfl)]
  · rfl

theorem llmReply_track (cfg : LlmConfig) (m msg : Str) (ks : List Obj) :
    llmReply cfg m (trackUnknownIssue msg ks) = llmReply cfg m ks := by
  unfold llmReply llmPrompt
  rw [kbContext_track]

theorem fallbackReply_track (m msg : Str) (ks : List Obj) :
    fallbackReply m (trackUnknownIssue msg ks) = fallbackReply m ks := by
  have hsc : scoredTopics m (trackUnknownIssue msg ks) = scoredTopics m ks := by
    unfold trackUnknownIssue
    split
    · exact scoredTopics_append_empty m (by rw [recAnswerRaw_unresolved]; rfl)
    · rfl
  unfold fallbackReply relatedText relatedTopics
  rw [hsc]

/-- Claim C5: the reply and source of `chat` are unaffected by the incident
tracker's side effect: tracking appends only a record with empty answer,
which contributes nothing to the LLM grounding context, the related-topics
scores, or the fallback text, so `chat` agrees with the pipeline
`chatNoTrack` that never mutates the store. -/
theorem c5_track_frame (cfg : LlmConfig) (msg : Str) (file : FileContent) :
    (chat cfg msg file).1 = (chatNoTrack cfg msg file).1 := by
  unfold chat chatNoTrack
  cases hsm : smalltalkReply msg with
  | some r => simp only [hsm]
  | none =>
    simp only [hsm]
    cases hf : findReply msg (loadKnowledge file) with
    | some r => simp only [hf]
    | none =>
      simp only [hf]
      cases ho : openstackScriptReply msg with
      | some r => simp only [ho]
      | none =>
        simp only [ho]
        by_cases hil : isIncidentLike msg = true
        · simp only [hil, if_true, true_and]
          rw [llmReply_track, fallbackReply_track]
          cases hll : llmReply cfg msg (loadKnowledge file) with
          | some r => simp only [hll]
          | none =>
            simp only [hll]
            cases cfg.hasKey <;> simp
        · rw [Bool.not_eq_true] at hil
          simp [hil]

/-! Claim C4. -/

theorem recMatchesC3_unresolved (text : Str) (mt : List Str) (q : Str) :
    recMatchesC3 text mt (unresolvedRecord q) = false := by
  simp [recMatchesC3, recAnswerRaw_unresolved, pyStrip]

theorem findReply_append_unresolved {msg : Str} {ks : List Obj} (q : Str)
    (h : findReply msg ks = none) :
    findReply msg (ks ++ [unresolvedRecord q]) = none := by
  have htext : (pyLower (pyStrip msg)).isEmpty = false := by
    cases he : (pyLower (pyStrip msg)).isEmpty with
    | false => rfl
    | true =>
      rw [findReply] at h
      simp [he] at h
  rw [findReply] at h ⊢
  simp only [htext, Bool.false_eq_true, if_false] at h ⊢
  rw [findReplyLoop_eq_find] at h ⊢
  have hnone : (ks.find? (recMatchesC3 (pyLower (pyStrip msg))
      (tokensOf (pyLower (pyStrip msg))))) = none := by
    cases hfk : ks.find? (recMatchesC3 (pyLower (pyStrip msg))
        (tokensOf (pyLower (pyStrip msg)))) with
    | none => rfl
    | some item => rw [hfk] at h; simp at h
  have hall : (ks ++ [unresolvedRecord q]).find? (recMatchesC3 (pyLower (pyStrip msg))
      (tokensOf (pyLower (pyStrip msg)))) = none := by
    rw [List.find?_eq_none] at hnone ⊢
    intro x hx
    rcases List.mem_append.mp hx with hx1 | hx2
    · exact hnone x hx1
    · have hxe : x = unresolvedRecord q := by simpa using hx2
      rw [hxe, recMatchesC3_unresolved]
      simp
  rw [hall]
  rfl

/-- Claim C4 counterexample: when the store already holds the unresolved
question "pod error" (its empty answer makes it invisible to every earlier
stage, so none of them answers and the message is incident-like), running
`chat` on "pod error" appends nothing at all — zero records in total, not
exactly one. -/
theorem c4_counterexample :
    smalltalkReply (lit "pod error") = none ∧
      findReply (lit "pod error") podErrorStore = none ∧
      openstackScriptReply (lit "pod error") = none ∧
      isIncidentLike (lit "pod error") = true ∧
      (chat demoCfg (lit "pod error") (saveKnowledge podErrorStore)).2 =
        saveKnowledge podErrorStore := by
  refine ⟨by decide, by decide, by decide, by decide, rfl⟩

/-- Claim C4 (amended): running `chat` twice with the same incident-like
message that no earlier stage answers and whose normalized question is not
yet stored appends exactly one unresolved record in total: the first run
appends it and persists, and the second run finds the exact case-insensitive
match among existing questions and leaves the persisted store unchanged. -/
theorem c4_track_idempotent (cfg : LlmConfig) (msg : Str) (file : FileContent)
    (hsm : smalltalkReply msg = none)
    (hf : findReply msg (loadKnowledge file) = none)
    (ho : openstackScriptReply msg = none)
    (hil : isIncidentLike msg = true)
    (hta : trackAppends msg (loadKnowledge file) = true) :
    loadKnowledge (chat cfg msg file).2 =
        loadKnowledge file ++ [unresolvedRecord (pyStrip msg)] ∧
      (chat cfg msg (chat cfg msg file).2).2 = (chat cfg msg file).2 := by
  have hchat1 : (chat cfg msg file).2 =
      saveKnowledge (loadKnowledge file ++ [unresolvedRecord (pyStrip msg)]) := by
    unfold chat
    simp only [hsm, hf, ho, hil, hta, if_true, true_and,
      trackUnknownIssue_of_appends hta, and_self]
    cases llmReply cfg msg (loadKnowledge file ++ [unresolvedRecord (pyStrip msg)]) <;>
      cases cfg.hasKey <;> simp
  have hload1 : loadKnowledge (saveKnowledge
      (loadKnowledge file ++ [unresolvedRecord (pyStrip msg)])) =
      loadKnowledge file ++ [unresolvedRecord (pyStrip msg)] := loadKnowledge_save _
  have hf1 : findReply msg
      (loadKnowledge file ++ [unresolvedRecord (pyStrip msg)]) = none :=
    findReply_append_unresolved _ hf
  have hmem1 : pyLower (pyStrip msg) ∈
      existingQuestions (loadKnowledge file ++ [unresolvedRecord (pyStrip msg)]) := by
    rw [existingQuestions_append]
    simp [existingQuestions, recQuestionRaw_unresolved, pyStrip_idem]
  have hta1 := trackAppends_of_mem hmem1
  constructor
  · rw [hchat1, hload1]
  · rw [hchat1]
    unfold chat
    simp only [hload1, hsm, hf1, ho, hil, hta1, Bool.and_false, if_true,
      trackUnknownIssue, Bool.false_eq_true, if_false]
    cases llmReply cfg msg (loadKnowledge file ++ [unresolvedRecord (pyStrip msg)]) <;>
      cases cfg.hasKey <;> simp

/-- Witness for claim C4's theorem: the fresh incident-like message
"pod stuck somehow" against the missing knowledge file. -/
theorem c4_witness :
    loadKnowledge (chat demoCfg (lit "pod stuck somehow") FileContent.missing).2 =
        loadKnowledge FileContent.missing ++
          [unresolvedRecord (pyStrip (lit "pod stuck somehow"))] ∧
      (chat demoCfg (lit "pod stuck somehow")
          (chat demoCfg (lit "pod stuck somehow") FileContent.missing).2).2 =
        (chat demoCfg (lit "pod stuck somehow") FileContent.missing).2 :=
  c4_track_idempotent demoCfg (lit "pod stuck somehow") FileContent.missing
    (by decide) (by decide) (by decide) (by decide) (by decide)

/-! Claim C8. -/

theorem scoreLe_trans {x y z : Score} (h1 : scoreLe x y = true)
    (h2 : scoreLe y z = true) : scoreLe x z = true := by
  simp only [scoreLe, decide_eq_true_eq] at h1 h2 ⊢
  have hy : 0 < y.den := Nat.succ_pos _
  have a1 : x.num * z.den * y.den ≤ z.num * x.den * y.den := by
    calc x.num * z.den * y.den = x.num * y.den * z.den := by ring
    _ ≤ y.num * x.den * z.den := Nat.mul_le_mul_right _ h1
    _ = y.num * z.den * x.den := by ring
    _ ≤ z.num * y.den * x.den := Nat.mul_le_mul_right _ h2
    _ = z.num * x.den * y.den := by ring
  exact Nat.le_of_mul_le_mul_right a1 hy

theorem scoreLe_total (x y : Score) : (scoreLe x y || scoreLe y x) = true := by
  simp only [scoreLe, Bool.or_eq_true, decide_eq_true_eq]
  exact Nat.le_total _ _

theorem insertScoreDesc_append (x : Score × Str) : ∀ (l1 l2 : List (Score × Str)),
    (∀ b ∈ l1, scoreLe b.1 x.1 = false) →
    (∀ c, l2.head? = some c → scoreLe c.1 x.1 = true) →
    insertScoreDesc x (l1 ++ l2) = l1 ++ x :: l2
  | [], l2, _, h2 => by
    cases l2 with
    | nil => rfl
    | cons c l2t =>
      simp only [List.nil_append, insertScoreDesc]
      rw [if_pos (h2 c rfl)]
  | b :: l1t, l2, h1, h2 => by
    have hb : scoreLe b.1 x.1 = false := h1 b (by simp)
    simp only [List.cons_append, insertScoreDesc, hb, Bool.false_eq_true, if_false,
      List.append_eq]
    rw [insertScoreDesc_append x l1t l2 (fun b2 hb2 => h1 b2 (by simp [hb2])) h2]

theorem sortScoresDesc_eq_mergeSort : ∀ l : List (Score × Str),
    sortScoresDesc l = l.mergeSort (fun a b => scoreLe b.1 a.1)
  | [] => by simp [sortScoresDesc]
  | a :: l => by
    have trans : ∀ p q r : Score × Str, scoreLe q.1 p.1 → scoreLe r.1 q.1 →
        scoreLe r.1 p.1 := fun p q r h1 h2 => scoreLe_trans h2 h1
    have total : ∀ p q : Score × Str, (scoreLe q.1 p.1 || scoreLe p.1 q.1) = true :=
      fun p q => scoreLe_total q.1 p.1
    obtain ⟨l1, l2, hcons, hrest, hmem⟩ :=
      List.mergeSort_cons trans total a l
    have hsorted := List.sorted_mergeSort trans total (a :: l)
    rw [hcons] at hsorted
    have hhead : ∀ c, l2.head? = some c → scoreLe c.1 a.1 = true := by
      intro c hc
      have hmem2 : c ∈ l2 := by
        cases l2 with
        | nil => simp at hc
        | cons d l2t => simp at hc; simp [hc]
      have hp := (List.pairwise_append.mp hsorted).2.1
      exact List.rel_of_pairwise_cons hp hmem2
    have hleft : ∀ b ∈ l1, scoreLe b.1 a.1 = false := by
      intro b hb
      have := hmem b hb
      simpa using this
    rw [sortScoresDesc, sortScoresDesc_eq_mergeSort l, hrest,
      insertScoreDesc_append a l1 l2 hleft hhead, hcons]

theorem scoreLexLe_eq_enumLE :
    scoreLexLe = List.enumLE (fun a b : Score × Str => scoreLe b.1 a.1) := by
  funext a b
  simp only [scoreLexLe, List.enumLE, scoreLe]
  rcases Nat.lt_trichotomy (a.2.1.num * b.2.1.den) (b.2.1.num * a.2.1.den) with h | h | h
  · have e1 : decide (b.2.1.num * a.2.1.den < a.2.1.num * b.2.1.den) = false := by
      simp
      omega
    have e2 : decide (a.2.1.num * b.2.1.den = b.2.1.num * a.2.1.den) = false := by
      simp
      omega
    have e3 : decide (b.2.1.num * a.2.1.den ≤ a.2.1.num * b.2.1.den) = false := by
      simp
      omega
    simp [e1, e2, e3]
  · have e1 : decide (b.2.1.num * a.2.1.den < a.2.1.num * b.2.1.den) = false := by
      simp
      omega
    have e2 : decide (a.2.1.num * b.2.1.den = b.2.1.num * a.2.1.den) = true := by
      simp
      omega
    have e3 : decide (b.2.1.num * a.2.1.den ≤ a.2.1.num * b.2.1.den) = true := by
      simp
      omega
    have e4 : decide (a.2.1.num * b.2.1.den ≤ b.2.1.num * a.2.1.den) = true := by
      simp
      omega
    simp [e1, e2, e3, e4]
  · have e1 : decide (b.2.1.num * a.2.1.den < a.2.1.num * b.2.1.den) = true := by
      simp
      omega
    have e3 : decide (b.2.1.num * a.2.1.den ≤ a.2.1.num * b.2.1.den) = true := by
      simp
      omega
    have e4 : decide (a.2.1.num * b.2.1.den ≤ b.2.1.num * a.2.1.den) = false := by
      simp
      omega
    simp [e1, e3, e4]

theorem sortedScoresSpecC8_eq (l : List (Score × Str)) :
    sortedScoresSpecC8 l = sortScoresDesc l := by
  rw [sortedScoresSpecC8, scoreLexLe_eq_enumLE, List.mergeSort_enum,
    ← sortScoresDesc_eq_mergeSort]

/-- Claim C8: the Fallback Responder is total and deterministic (a Lean
function), picks its text by the first matching keyword group in the fixed
order, and every branch ends with the related-topics suffix of up to the top
3 positively-scoring stored questions sorted descending by overlap ratio
with ties in original store order (the claim-side sort is realized
independently by a merge sort over position-indexed records); an empty store
yields no suffix. -/
theorem c8_fallback_spec (msg : Str) (ks : List Obj) :
    fallbackReply msg ks = fallbackSpecC8 msg ks ∧ relatedText msg [] = [] := by
  constructor
  · unfold fallbackReply fallbackSpecC8 relatedText relatedTopics
    rw [sortedScoresSpecC8_eq]
    dsimp only
    split_ifs <;> rfl
  · rfl

/-! Claim C1. -/

theorem contains_eq_false_of_openstack_free {text : Str} (phrases : List String)
    (hall : ∀ p ∈ phrases, hasSub (lit "openstack") (lit p) = false)
    (h2 : lit "openstack" <:+: text) :
    (phrases.map lit).contains text = false := by
  cases hc : (phrases.map lit).contains text with
  | false => rfl
  | true =>
    have hmem := List.mem_of_elem_eq_true hc
    obtain ⟨p, hp, hpe⟩ := List.mem_map.mp hmem
    have hfalse := hall p hp
    rw [hpe] at hfalse
    rw [hasSub_iff.mpr h2] at hfalse
    exact absurd hfalse (by simp)

theorem smalltalkReply_none_of_openstack {msg : Str}
    (h : hasSub (lit "openstack") (pyLower msg) = true) :
    smalltalkReply msg = none := by
  have hinf : lit "openstack" <:+: pyLower msg := hasSub_iff.mp h
  have h1 : lit "openstack" <:+: pyStrip (pyLower msg) :=
    sub_pyStrip hinf (by decide) (by decide)
  have h2 : lit "openstack" <:+: pyLower (pyStrip msg) := by
    rw [← pyStrip_pyLower]
    exact h1
  have hne : pyLower (pyStrip msg) ≠ [] := ne_nil_of_sub h2 (by decide)
  have hie : (pyLower (pyStrip msg)).isEmpty = false := by
    simpa [List.isEmpty_iff] using hne
  have hc1 := contains_eq_false_of_openstack_free
    ["hi", "hello", "hey", "yo", "good morning", "good afternoon", "good evening"]
    (by decide) h2
  have hc2 := contains_eq_false_of_openstack_free ["thanks", "thank you", "thx"]
    (by decide) h2
  have hc3 := contains_eq_false_of_openstack_free
    ["help", "what can you do", "what can you help with"] (by decide) h2
  simp only [smalltalkReply, hie, hc1, hc2, hc3, Bool.false_eq_true, if_false]

theorem openstackScriptReply_some {msg : Str}
    (h1 : hasSub (lit "openstack") (pyLower msg) = true)
    (h2 : hasSub (lit "volume") (pyLower msg) = true)
    (h3 : (hasSub (lit "delete") (pyLower msg) || hasSub (lit "remove") (pyLower msg)) = true)
    (h4 : hasSub (lit "available") (pyLower msg) = true) :
    openstackScriptReply msg = some openstackScriptText := by
  simp only [openstackScriptReply, h1, h2, h3, h4, Bool.and_true, Bool.true_and, if_true]

/-- Claim C1 counterexample: the message "delete all available openstack
volumes" satisfies all four template keywords, yet with a curated store whose
record matches it by containment, `chat` answers from the knowledge store —
the template stage is NOT reached, so the reply is not the static script and
the source is not `template:openstack_script`. -/
theorem c1_counterexample :
    hasSub (lit "openstack") (pyLower (lit "delete all available openstack volumes")) = true ∧
      hasSub (lit "volume") (pyLower (lit "delete all available openstack volumes")) = true ∧
      hasSub (lit "delete") (pyLower (lit "delete all available openstack volumes")) = true ∧
      hasSub (lit "available") (pyLower (lit "delete all available openstack volumes")) = true ∧
      (chat demoCfg (lit "delete all available openstack volumes")
          (saveKnowledge c1Store)).1 =
        (lit "See the approved runbook.", lit "knowledge.json") :=
  ⟨by decide, by decide, by decide, by decide, by decide⟩

/-- Claim C1 (amended): for every message whose lowercased text contains
"openstack", "volume", "available", and "delete" or "remove", **provided the
knowledge-store lookup produces no match**, `chat` returns the static script
reply (which contains the literal header `#!/usr/bin/env bash`) with source
`template:openstack_script`, leaving the store untouched; the smalltalk stage
can never claim such a message. -/
theorem c1_template_reply (cfg : LlmConfig) (msg : Str) (file : FileContent)
    (h1 : hasSub (lit "openstack") (pyLower msg) = true)
    (h2 : hasSub (lit "volume") (pyLower msg) = true)
    (h3 : (hasSub (lit "delete") (pyLower msg) || hasSub (lit "remove") (pyLower msg)) = true)
    (h4 : hasSub (lit "available") (pyLower msg) = true)
    (hf : findReply msg (loadKnowledge file) = none) :
    chat cfg msg file = ((openstackScriptText, lit "template:openstack_script"), file) := by
  unfold chat
  simp only [smalltalkReply_none_of_openstack h1, hf,
    openstackScriptReply_some h1 h2 h3 h4]

/-- Witness for claim C1's theorem: a concrete volume-deletion request with
the missing knowledge file (so the lookup has no record to match). -/
theorem c1_witness :
    chat demoCfg (lit "please remove my available openstack volumes") FileContent.missing =
      ((openstackScriptText, lit "template:openstack_script"), FileContent.missing) :=
  c1_template_reply demoCfg (lit "please remove my available openstack volumes")
    FileContent.missing (by decide) (by decide) (by decide) (by decide) (by decide)

/-! Claim C10. -/

/-- Claim C10: when no earlier fallback keyword group matches, the OpenStack
branch of the Fallback Responder fires exactly when the lowercased message
contains one of "openstack", "nova", "neutron", "cinder"; and the concrete
messages naming only "glance" or "keystone" are incident-like for the
tracker yet fall through to the generic Kubernetes-pod reply. -/
theorem c10_fallback_openstack_group (msg : Str) (ks : List Obj)
    (h1 : hasSub (lit "readiness") (pyLower msg) = false)
    (h2 : hasSub (lit "liveness") (pyLower msg) = false)
    (h3 : hasSub (lit "probe") (pyLower msg) = false) :
    (fallbackReply msg ks =
      (if fallbackOpenstackGroup msg then fallbackOpenstackText
        else fallbackGenericText) ++ relatedText msg ks) ∧
    isIncidentLike (lit "glance image stuck") = true ∧
    fallbackReply (lit "glance image stuck") [] = fallbackGenericText ∧
    isIncidentLike (lit "keystone auth refused") = true ∧
    fallbackReply (lit "keystone auth refused") [] = fallbackGenericText := by
  refine ⟨?_, by decide, by decide, by decide, by decide⟩
  unfold fallbackReply fallbackOpenstackGroup
  by_cases hg : (hasSub (lit "openstack") (pyLower msg) || hasSub (lit "nova") (pyLower msg) ||
      hasSub (lit "neutron") (pyLower msg) || hasSub (lit "cinder") (pyLower msg)) = true
  · simp [h1, h2, h3, hg]
  · rw [Bool.not_eq_true] at hg
    simp only [Bool.or_eq_false_iff] at hg
    simp [h1, h2, h3, hg.1.1.1, hg.1.1.2, hg.1.2, hg.2]

/-- Witness for claim C10's theorem at the concrete message
"glance image stuck" with the empty store. -/
theorem c10_witness :
    (fallbackReply (lit "glance image stuck") [] =
      (if fallbackOpenstackGroup (lit "glance image stuck") then fallbackOpenstackText
        else fallbackGenericText) ++ relatedText (lit "glance image stuck") []) ∧
    isIncidentLike (lit "glance image stuck") = true ∧
    fallbackReply (lit "glance image stuck") [] = fallbackGenericText ∧
    isIncidentLike (lit "keystone auth refused") = true ∧
    fallbackReply (lit "keystone auth refused") [] = fallbackGenericText :=
  c10_fallback_openstack_group (lit "glance image stuck") []
    (by decide) (by decide) (by decide)
